import Mathlib

/-!
# Verification development for the TravelMatch proof-verification subsystem

Shallow embedding of `services/ml-service/app/models/proof_verification.py`:
the verification orchestrator (`ProofVerificationModel.verify`,
`_calculate_verification`, `_build_response`), the duplicate detector
(`DuplicateProofDetector`) and the face analyzer (`FaceAnalyzer`).

Python floats are modelled as exact rationals (`ℚ`); `round(x, n)` is
modelled as rounding `x·10ⁿ` to the nearest integer (Mathlib's `round`).
The analyzers called by the orchestrator are asynchronous collaborators;
the orchestrator is embedded as a function of the analyzer results it
would receive, which mirrors the Python control flow exactly (each
analyzer is called at most once and only its returned dictionary is used).
The response records which analyzers were invoked, mirroring the call
sites in `verify`. `_build_response` has a reachable `AttributeError`
(`None.get("confidence", 0)` when a landmark analysis ran and detected no
top match), so it is embedded as `Except String Response`: `Except.error`
models the raised exception, `Except.ok` a delivered response.
-/

namespace ProofVerification

/-- `round(x, 1)` of Python, on exact rationals. -/
def round1 (x : ℚ) : ℚ := (round (x * 10) : ℤ) / 10

/-- `round(x, 3)` of Python, on exact rationals. -/
def round3 (x : ℚ) : ℚ := (round (x * 1000) : ℤ) / 1000

/-- The `ProofType` string enum (`proof_verification.py`, lines 28-34). -/
inductive ProofType where
  | selfie_with_id
  | experience_photo
  | receipt
  | location_check
  | video_proof
deriving DecidableEq

/-- The `.value` of each `ProofType` member. -/
def ProofType.value : ProofType → String
  | .selfie_with_id => "selfie_with_id"
  | .experience_photo => "experience_photo"
  | .receipt => "receipt"
  | .location_check => "location_check"
  | .video_proof => "video_proof"

/-- The `VerificationStatus` string enum (lines 37-42). -/
inductive VerificationStatus where
  | approved
  | rejected
  | manual_review
  | pending
deriving DecidableEq

/-- The `.value` of each `VerificationStatus` member. -/
def VerificationStatus.value : VerificationStatus → String
  | .approved => "approved"
  | .rejected => "rejected"
  | .manual_review => "manual_review"
  | .pending => "pending"

/-- The fields of the `ImageQualityAnalyzer.analyze` result used by the
orchestrator: `overall_score` and `suggestions`. -/
structure QualityResult where
  overall_score : ℚ
  suggestions : List String
deriving DecidableEq

/-- The fields of the `ImageAuthenticityAnalyzer.analyze` result used by
the orchestrator: `is_authentic` and `authenticity_score`. -/
structure AuthenticityResult where
  is_authentic : Bool
  authenticity_score : ℚ
deriving DecidableEq

/-- The fields of a `top_match` entry of `LandmarkDetector.detect` used by
the orchestrator (`confidence`). -/
structure TopMatch where
  confidence : ℚ
deriving DecidableEq

/-- The fields of the `LandmarkDetector.detect` result used by the
orchestrator: `top_match` (possibly `None`) and `location_verified`. -/
structure LandmarkResult where
  top_match : Option TopMatch
  location_verified : Bool
deriving DecidableEq

/-- The fields of the `ObjectDetector.detect` result used by the
orchestrator: `category_verified` and `primary_category` (possibly
`None`; Python truthiness also treats the empty string as false). -/
structure ObjectResult where
  category_verified : Bool
  primary_category : Option String
deriving DecidableEq

/-- The fields of the `FaceAnalyzer.analyze` result used by the
orchestrator: `face_detected`, `quality_score`, `liveness_score`, and
`match_score` (possibly `None`). -/
structure FaceResult where
  face_detected : Bool
  quality_score : ℚ
  liveness_score : ℚ
  match_score : Option ℚ
deriving DecidableEq

/-- The `results` dictionary accumulated by `verify` (lines 677-733):
each key is present exactly when the corresponding analyzer was invoked
and its result stored. -/
structure Results where
  quality : Option QualityResult
  authenticity : Option AuthenticityResult
  landmarks : Option LandmarkResult
  objects : Option ObjectResult
  face : Option FaceResult
deriving DecidableEq

/-- The dictionary returned by `_calculate_verification` (lines 851-857). -/
structure Verification where
  approved : Bool
  status : VerificationStatus
  score : ℚ
  issues : List String
  suggestions : List String
deriving DecidableEq

/-- The `breakdown` sub-dictionary of `_build_response` (lines 873-881). -/
structure Breakdown where
  quality_score : ℚ
  authenticity_score : ℚ
  landmark_confidence : Option ℚ
  face_quality : Option ℚ
deriving DecidableEq

/-- The response dictionary built by `_build_response` (lines 859-886),
minus the wall-clock `verified_at` timestamp. -/
structure Response where
  approved : Bool
  status : String
  overall_score : ℚ
  breakdown : Breakdown
  details : Results
  issues : List String
  suggestions : List String
deriving DecidableEq

/-- The exception `_build_response` raises on its reachable error path
(see `buildResponse`): `None.get("confidence", 0)`. -/
def attributeError : String := "AttributeError"

/-- A `verify` call outcome: the response — or the exception the call
raises — together with the list of analyzers that were invoked, in call
order (instrumentation mirroring the call sites at lines 680, 696, 706,
713 and 725; all analyzer calls precede `_build_response`, so the list is
meaningful even when the call raises). -/
structure VerifyRun where
  response : Except String Response
  invoked : List String

/-- `quality_score` as read in `_calculate_verification` (line 777):
`results.get("quality", {}).get("overall_score", 0)`. -/
def qualityScoreOf (results : Results) : ℚ :=
  (results.quality.map (·.overall_score)).getD 0

/-- The score entries contributed by the landmark section of
`_calculate_verification` (lines 799-808). -/
def landmarkPart (lm : Option LandmarkResult) : List (String × ℚ × ℚ) :=
  match lm with
  | none => []
  | some lr =>
    if lr.location_verified then [("landmark", 1, 0.3)]
    else
      match lr.top_match with
      | some tm => [("landmark", tm.confidence, 0.3)]
      | none => [("landmark", 0.3, 0.3)]

/-- The issue contributed by the landmark section (line 808). -/
def landmarkIssuePart (lm : Option LandmarkResult) : List String :=
  match lm with
  | none => []
  | some lr =>
    if lr.location_verified then []
    else
      match lr.top_match with
      | some _ => []
      | none => ["Konum doğrulanamadı"]

/-- The score entries contributed by the object section of
`_calculate_verification` (lines 810-815); Python truthiness of
`primary_category` treats `None` and `""` as false. -/
def objectsPart (ob : Option ObjectResult) : List (String × ℚ × ℚ) :=
  match ob with
  | none => []
  | some o =>
    if o.category_verified then [("objects", 1, 0.15)]
    else if (o.primary_category.getD ("")) ≠ "" then [("objects", 0.7, 0.15)]
    else []

/-- The score entries contributed by the face section of
`_calculate_verification` (lines 817-830); it only applies to
`selfie_with_id` proofs, and Python truthiness of
`face_result.get("face_detected")` treats a missing result as false. -/
def facePart (pt : String) (face : Option FaceResult) : List (String × ℚ × ℚ) :=
  if pt = ProofType.selfie_with_id.value then
    match face with
    | some f =>
      if f.face_detected then
        [("face", (f.quality_score + f.liveness_score) / 2, 0.15)]
      else [("face", 0, 0.15)]
    | none => [("face", 0, 0.15)]
  else []

/-- The issues contributed by the face section (lines 826-829); the
match-score warning fires only when `match_score` is truthy (not `None`,
not `0.0`) and below `0.8`. -/
def faceIssuePart (pt : String) (face : Option FaceResult) : List String :=
  if pt = ProofType.selfie_with_id.value then
    match face with
    | some f =>
      if f.face_detected then
        match f.match_score with
        | some m => if m ≠ 0 ∧ m < 0.8 then ["Yüz eşleşme skoru düşük"] else []
        | none => []
      else ["Fotoğrafta yüz tespit edilemedi"]
    | none => ["Fotoğrafta yüz tespit edilemedi"]
  else []

/-- The full `scores` list of `_calculate_verification` on the
non-short-circuit path (lines 772-830): quality (weight 0.15),
authenticity (0.25, default score 0.5), then the landmark, object and
face sections. -/
def scoresOf (results : Results) (pt : String) : List (String × ℚ × ℚ) :=
  ("quality", qualityScoreOf results, 0.15) ::
  ("authenticity", (results.authenticity.map (·.authenticity_score)).getD 0.5, 0.25) ::
  (landmarkPart results.landmarks ++ objectsPart results.objects ++ facePart pt results.face)

/-- The full `issues` list accumulated on the non-short-circuit path:
the low-quality warning (line 780), the landmark issue, the face issues. -/
def issuesOf (results : Results) (pt : String) : List String :=
  (if qualityScoreOf results < 0.5 then ["Fotoğraf kalitesi düşük"] else []) ++
  landmarkIssuePart results.landmarks ++ faceIssuePart pt results.face

/-- Total weight `sum(s[2] for s in scores)` (line 833). -/
def wTotal (l : List (String × ℚ × ℚ)) : ℚ := (l.map (fun x => x.2.2)).sum

/-- Weighted sum `sum(s[1] * s[2] for s in scores)` (line 834). -/
def wSum (l : List (String × ℚ × ℚ)) : ℚ := (l.map (fun x => x.2.1 * x.2.2)).sum

/-- The weighted average of line 834:
`sum(s[1]*s[2])/total_weight if total_weight > 0 else 0`. -/
def fusedOf (results : Results) (pt : String) : ℚ :=
  let l := scoresOf results pt
  if 0 < wTotal l then wSum l / wTotal l else 0

/-- The status decision of lines 836-849, as a (status, approved) pair. -/
def decideStatus (overall : ℚ) (issues : List String) :
    VerificationStatus × Bool :=
  if 0.8 ≤ overall ∧ issues = [] then (.approved, true)
  else if 0.6 ≤ overall ∧ issues.length ≤ 1 then (.approved, true)
  else if 0.4 ≤ overall then (.manual_review, false)
  else (.rejected, false)

/-- `ProofVerificationModel._calculate_verification` (lines 764-857).
The authenticity hard gate (lines 785-794) returns MANUAL_REVIEW with
score `0.0` before any further score is gathered; otherwise the weighted
average is fused and the status decided, appending the manual-review
suggestion exactly in that branch (line 846). -/
def calcVerification (results : Results) (pt : String) : Verification :=
  let qs := qualityScoreOf results
  let preIssues := if qs < 0.5 then ["Fotoğraf kalitesi düşük"] else []
  let preSugg := if qs < 0.5 then (results.quality.map (·.suggestions)).getD [] else []
  if ((results.authenticity.map (·.is_authentic)).getD true) = false then
    { approved := false
      status := .manual_review
      score := 0
      issues := preIssues ++ ["Fotoğraf manipüle edilmiş olabilir"]
      suggestions := ["Orijinal, düzenlenmemiş fotoğraf yükleyin"] }
  else
    let overall := fusedOf results pt
    let issues := issuesOf results pt
    let sb := decideStatus overall issues
    { approved := sb.2
      status := sb.1
      score := round1 (overall * 100)
      issues := issues
      suggestions :=
        preSugg ++ (if sb.1 = .manual_review then ["Kanıtınız manuel incelemeye alındı"] else []) }

/-- The response record `_build_response` assembles, given the
`landmark_confidence` breakdown entry it computed. -/
def responseCore (approved : Bool) (status : VerificationStatus)
    (results : Results) (overall_score : ℚ) (issues suggestions : List String)
    (landmark_confidence : Option ℚ) : Response :=
  { approved := approved
    status := status.value
    overall_score := overall_score
    breakdown :=
      { quality_score := ((results.quality.map (·.overall_score)).getD 0) * 100
        authenticity_score := ((results.authenticity.map (·.authenticity_score)).getD 0) * 100
        landmark_confidence := landmark_confidence
        face_quality := results.face.map (fun f => f.quality_score * 100) }
    details := results
    issues := issues
    suggestions := suggestions }

/-- `ProofVerificationModel._build_response` (lines 859-886). The
`landmark_confidence` entry evaluates
`results.get("landmarks", {}).get("top_match", {}).get("confidence", 0)`
(line 877). Python's `dict.get` returns the STORED value whenever the key
exists, and `LandmarkDetector.detect` always stores the `top_match` key —
with value `None` when no landmark cleared its threshold — so
`.get("top_match", {})` yields `None` and `None.get("confidence", 0)`
raises `AttributeError`. Hence the function returns a response only when
no landmark analysis ran, or when one ran and a top match exists; the
error case is a reachable crash of the whole `verify` call. -/
def buildResponse (approved : Bool) (status : VerificationStatus)
    (results : Results) (overall_score : ℚ) (issues suggestions : List String) :
    Except String Response :=
  match results.landmarks with
  | some lr =>
    match lr.top_match with
    | none => Except.error attributeError
    | some tm =>
      Except.ok (responseCore approved status results overall_score issues
        suggestions (some (tm.confidence * 100)))
  | none =>
    Except.ok (responseCore approved status results overall_score issues
      suggestions none)

/-- Whether `verify` runs the landmark detector (line 702). -/
def runsLandmark (pt : String) : Prop :=
  pt = ProofType.experience_photo.value ∨ pt = ProofType.location_check.value

/-- Whether `verify` runs the face analyzer (line 720). -/
def runsFace (pt : String) : Prop :=
  pt = ProofType.selfie_with_id.value ∨ pt = ProofType.experience_photo.value

instance (pt : String) : Decidable (runsLandmark pt) :=
  inferInstanceAs (Decidable (_ = _ ∨ _ = _))

instance (pt : String) : Decidable (runsFace pt) :=
  inferInstanceAs (Decidable (_ = _ ∨ _ = _))

/-- The `results` dictionary as populated by `verify` once the quality
gate has passed (lines 695-733): authenticity always stored, landmarks
only for `experience_photo`/`location_check`, objects always stored
(line 713 has no proof-type guard), face only for
`selfie_with_id`/`experience_photo`. -/
def pipelineResults (pt : String) (qr : QualityResult) (ar : AuthenticityResult)
    (lr : LandmarkResult) (orr : ObjectResult) (fr : FaceResult) : Results :=
  { quality := some qr
    authenticity := some ar
    landmarks := if runsLandmark pt then some lr else none
    objects := some orr
    face := if runsFace pt then some fr else none }

/-- `ProofVerificationModel.verify` (lines 631-762), as a function of the
proof type and of the result each analyzer would return if invoked.
The quality gate (lines 686-693) rejects immediately when
`overall_score < 0.3`, with no other analyzer invoked; otherwise every
remaining analyzer selected for the proof type runs and the verdict is
computed by `_calculate_verification`. -/
def verify (pt : String) (qr : QualityResult) (ar : AuthenticityResult)
    (lr : LandmarkResult) (orr : ObjectResult) (fr : FaceResult) : VerifyRun :=
  let results0 : Results :=
    { quality := some qr, authenticity := none, landmarks := none
      objects := none, face := none }
  if qr.overall_score < 0.3 then
    { response :=
        buildResponse false .rejected results0 0
          ["Fotoğraf kalitesi çok düşük"] qr.suggestions
      invoked := ["quality"] }
  else
    let results := pipelineResults pt qr ar lr orr fr
    let v := calcVerification results pt
    { response := buildResponse v.approved v.status results v.score v.issues v.suggestions
      invoked :=
        ["quality", "authenticity"] ++
        (if runsLandmark pt then ["landmarks"] else []) ++
        ["objects"] ++
        (if runsFace pt then ["face"] else []) }

/-! ## Sample analyzer results used by witnesses and counterexamples -/

/-- A passing quality result (score 0.8, no suggestions). -/
def qrOK : QualityResult := { overall_score := 0.8, suggestions := [] }

/-- A failing quality result (score 0.2), as in the end-to-end scenario C
of the specification. -/
def qrLow : QualityResult := { overall_score := 0.2, suggestions := [] }

/-- An authentic image result with score 0.8. -/
def arOK : AuthenticityResult := { is_authentic := true, authenticity_score := 0.8 }

/-- A manipulated-image result (`is_authentic = false`). -/
def arBad : AuthenticityResult := { is_authentic := false, authenticity_score := 0.4 }

/-- A landmark result with a verified location and a 0.9-confidence match. -/
def lrVerified : LandmarkResult :=
  { top_match := some { confidence := 0.9 }, location_verified := true }

/-- An object result with a verified category. -/
def orVerified : ObjectResult :=
  { category_verified := true, primary_category := some ("adventure") }

/-- A detected face with quality 0.8, liveness 0.8 and match score 0.9. -/
def frDetected : FaceResult :=
  { face_detected := true, quality_score := 0.8, liveness_score := 0.8
    match_score := some 0.9 }

/-! ## Claims about the orchestrator -/

/-- A landmark analysis that detected nothing: no top match, location
not verified (what `LandmarkDetector.detect` returns when no landmark
clears its threshold). -/
def lrNoMatch : LandmarkResult := { top_match := none, location_verified := false }

/-- Counterexample to claim C1 as stated: an `experience_photo` whose
quality passes the gate and whose authenticity analyzer reports
`is_authentic = false`, but where the landmark analysis found no top
match, produces NO final result at all — `verify` raises
`AttributeError` inside `_build_response` — so the guarantee that every
such submission ends as a MANUAL_REVIEW result, regardless of the other
analyzers, is false of the program. -/
theorem C1_counterexample :
    arBad.is_authentic = false ∧ (0.3 : ℚ) ≤ qrOK.overall_score ∧
    (verify ProofType.experience_photo.value qrOK arBad lrNoMatch orVerified frDetected).response =
      Except.error attributeError := by
  refine ⟨by decide, by norm_num [qrOK], ?_⟩
  have h : ¬ (qrOK.overall_score < 0.3) := by norm_num [qrOK]
  have hL : runsLandmark ProofType.experience_photo.value := by decide
  simp [verify, h, hL, pipelineResults, buildResponse, lrNoMatch]

/-- Claim C1 amended: whenever the authenticity analyzer ran (the quality
gate passed) and reported `is_authentic = false`, the call delivers a
result only unless a landmark analysis ran and detected no top match, in
which case `_build_response` raises `AttributeError` and nothing is
returned; in every other case the returned result has status
MANUAL_REVIEW with `approved = false`, whatever the other analyzers
scored — never APPROVED and never REJECTED. -/
theorem C1_amended (pt : String) (qr : QualityResult)
    (ar : AuthenticityResult) (lr : LandmarkResult) (orr : ObjectResult)
    (fr : FaceResult) (hq : 0.3 ≤ qr.overall_score)
    (ha : ar.is_authentic = false) :
    ((runsLandmark pt ∧ lr.top_match = none) →
      (verify pt qr ar lr orr fr).response = Except.error attributeError) ∧
    (¬(runsLandmark pt ∧ lr.top_match = none) →
      ∃ r, (verify pt qr ar lr orr fr).response = Except.ok r ∧
        r.status = VerificationStatus.manual_review.value ∧
        r.approved = false ∧
        r.status ≠ VerificationStatus.approved.value ∧
        r.status ≠ VerificationStatus.rejected.value) := by
  have h : ¬ qr.overall_score < 0.3 := not_lt.mpr hq
  constructor
  · rintro ⟨hL, htm⟩
    simp [verify, h, pipelineResults, hL, htm, buildResponse]
  · intro hnc
    by_cases hL : runsLandmark pt
    · obtain ⟨tm, htm⟩ : ∃ tm, lr.top_match = some tm := by
        cases htc : lr.top_match with
        | none => exact absurd ⟨hL, htc⟩ hnc
        | some tm => exact ⟨tm, rfl⟩
      simp [verify, h, pipelineResults, hL, htm, buildResponse, responseCore,
        calcVerification, ha, VerificationStatus.value]
    · simp [verify, h, pipelineResults, hL, buildResponse, responseCore,
        calcVerification, ha, VerificationStatus.value]

/-- Witness for the amended C1 at a concrete input: quality 0.8 passes
the gate, the authenticity analyzer reports `is_authentic = false`, a
landmark top match exists (no crash), and the delivered result is a
non-approved manual review. -/
theorem C1_witness :
    (0.3 : ℚ) ≤ qrOK.overall_score ∧ arBad.is_authentic = false ∧
    ∃ r, (verify ProofType.experience_photo.value qrOK arBad lrVerified orVerified frDetected).response =
        Except.ok r ∧
      r.status = VerificationStatus.manual_review.value ∧
      r.approved = false ∧
      r.status ≠ VerificationStatus.approved.value ∧
      r.status ≠ VerificationStatus.rejected.value :=
  ⟨by norm_num [qrOK], by decide,
    (C1_amended _ qrOK arBad lrVerified orVerified frDetected
      (by norm_num [qrOK]) (by decide)).2 (by simp [lrVerified])⟩

/-- Claim C2: when the quality analyzer scores below 0.3, the submission
is rejected immediately with the single quality-too-low issue
("Fotoğraf kalitesi çok düşük"); only the quality analyzer was invoked,
a response is always delivered (no landmark result is stored, so the
`_build_response` error path cannot fire), and no
authenticity/landmark/object/face sub-result or sub-score appears in it. -/
theorem C2_quality_gate (pt : String) (qr : QualityResult)
    (ar : AuthenticityResult) (lr : LandmarkResult) (orr : ObjectResult)
    (fr : FaceResult) (hq : qr.overall_score < 0.3) :
    (verify pt qr ar lr orr fr).invoked = ["quality"] ∧
    ∃ r, (verify pt qr ar lr orr fr).response = Except.ok r ∧
      r.status = VerificationStatus.rejected.value ∧
      r.approved = false ∧
      r.issues = ["Fotoğraf kalitesi çok düşük"] ∧
      r.details.authenticity = none ∧
      r.details.landmarks = none ∧
      r.details.objects = none ∧
      r.details.face = none ∧
      r.breakdown.landmark_confidence = none ∧
      r.breakdown.face_quality = none := by
  simp [verify, hq, buildResponse, responseCore]

/-- Witness for C2 at a concrete input: quality 0.2 is rejected with the
single issue and only the quality analyzer invoked. -/
theorem C2_witness :
    qrLow.overall_score < (0.3 : ℚ) ∧
    (verify ProofType.receipt.value qrLow arOK lrVerified orVerified frDetected).invoked = ["quality"] ∧
    ∃ r, (verify ProofType.receipt.value qrLow arOK lrVerified orVerified frDetected).response =
        Except.ok r ∧
      r.status = VerificationStatus.rejected.value ∧
      r.approved = false ∧
      r.issues = ["Fotoğraf kalitesi çok düşük"] ∧
      r.details.authenticity = none ∧
      r.details.landmarks = none ∧
      r.details.objects = none ∧
      r.details.face = none ∧
      r.breakdown.landmark_confidence = none ∧
      r.breakdown.face_quality = none :=
  ⟨by norm_num [qrLow],
    (C2_quality_gate _ qrLow arOK lrVerified orVerified frDetected (by norm_num [qrLow])).1,
    (C2_quality_gate _ qrLow arOK lrVerified orVerified frDetected (by norm_num [qrLow])).2⟩

/-- Claim C3: on every verification that reaches score fusion (both gates
passed), the verdict `_calculate_verification` computes — and, whenever a
response is delivered, the response's status and approved flag — are
exactly `decideStatus` of the fused score and issue list, and
`decideStatus` implements the claimed rule: fused ≥ 0.8 with no issue, or
fused ≥ 0.6 with at most one issue, gives APPROVED with
`approved = true`; otherwise fused ≥ 0.4 gives MANUAL_REVIEW; otherwise
REJECTED; and `approved` is true iff the status is APPROVED. -/
theorem C3_status_rule (pt : String) (qr : QualityResult)
    (ar : AuthenticityResult) (lr : LandmarkResult) (orr : ObjectResult)
    (fr : FaceResult) (hq : 0.3 ≤ qr.overall_score)
    (ha : ar.is_authentic = true) :
    ((calcVerification (pipelineResults pt qr ar lr orr fr) pt).status =
        (decideStatus (fusedOf (pipelineResults pt qr ar lr orr fr) pt)
          (issuesOf (pipelineResults pt qr ar lr orr fr) pt)).1 ∧
      (calcVerification (pipelineResults pt qr ar lr orr fr) pt).approved =
        (decideStatus (fusedOf (pipelineResults pt qr ar lr orr fr) pt)
          (issuesOf (pipelineResults pt qr ar lr orr fr) pt)).2) ∧
    (∀ r, (verify pt qr ar lr orr fr).response = Except.ok r →
      r.status =
        (decideStatus (fusedOf (pipelineResults pt qr ar lr orr fr) pt)
          (issuesOf (pipelineResults pt qr ar lr orr fr) pt)).1.value ∧
      r.approved =
        (decideStatus (fusedOf (pipelineResults pt qr ar lr orr fr) pt)
          (issuesOf (pipelineResults pt qr ar lr orr fr) pt)).2) ∧
    (∀ (s : ℚ) (is : List String),
      ((decideStatus s is).1 = .approved ↔
        (0.8 ≤ s ∧ is = []) ∨ (0.6 ≤ s ∧ is.length ≤ 1)) ∧
      ((decideStatus s is).1 = .manual_review ↔
        ¬((0.8 ≤ s ∧ is = []) ∨ (0.6 ≤ s ∧ is.length ≤ 1)) ∧ 0.4 ≤ s) ∧
      ((decideStatus s is).1 = .rejected ↔
        ¬((0.8 ≤ s ∧ is = []) ∨ (0.6 ≤ s ∧ is.length ≤ 1)) ∧ ¬(0.4 ≤ s)) ∧
      ((decideStatus s is).2 = true ↔ (decideStatus s is).1 = .approved)) := by
  have h : ¬ qr.overall_score < 0.3 := not_lt.mpr hq
  refine ⟨?_, ?_, ?_⟩
  · simp [calcVerification, pipelineResults, ha]
  · intro r hr
    by_cases hL : runsLandmark pt
    · cases htm : lr.top_match with
      | none =>
        simp [verify, h, pipelineResults, hL, htm, buildResponse] at hr
      | some tm =>
        simp [verify, h, pipelineResults, hL, htm, buildResponse, responseCore,
          calcVerification, ha] at hr
        simp [← hr, pipelineResults, hL]
    · simp [verify, h, pipelineResults, hL, buildResponse, responseCore,
        calcVerification, ha] at hr
      simp [← hr, pipelineResults, hL]
  · intro s is
    unfold decideStatus
    split_ifs with h1 h2 h3 <;> simp_all

/-- Witness for C3 at a concrete input (experience photo, all analyzers
favorable): the computed verdict agrees with `decideStatus` of the fused
score and issues, and the decision rule holds. -/
theorem C3_witness :
    (0.3 : ℚ) ≤ qrOK.overall_score ∧ arOK.is_authentic = true ∧
    (calcVerification (pipelineResults ProofType.experience_photo.value qrOK arOK lrVerified orVerified frDetected)
        ProofType.experience_photo.value).status =
      (decideStatus
        (fusedOf (pipelineResults ProofType.experience_photo.value qrOK arOK lrVerified orVerified frDetected)
          ProofType.experience_photo.value)
        (issuesOf (pipelineResults ProofType.experience_photo.value qrOK arOK lrVerified orVerified frDetected)
          ProofType.experience_photo.value)).1 ∧
    ((decideStatus (9/10 : ℚ) []).1 = .approved ↔
      ((0.8 : ℚ) ≤ 9/10 ∧ ([] : List String) = []) ∨ ((0.6 : ℚ) ≤ 9/10 ∧ ([] : List String).length ≤ 1)) :=
  ⟨by norm_num [qrOK], by decide,
    ((C3_status_rule _ qrOK arOK lrVerified orVerified frDetected
      (by norm_num [qrOK]) (by decide)).1).1,
    ((C3_status_rule ProofType.experience_photo.value qrOK arOK lrVerified orVerified frDetected
      (by norm_num [qrOK]) (by decide)).2.2 (9/10) []).1⟩

/-- A proof type string outside the five enumerated `ProofType` values. -/
def unknownProofType : String := "passport_scan"

/-- Counterexample to claim C5 as stated: for a `receipt` proof that
passes the quality gate, the object detector IS invoked (line 713 of
`verify` has no proof-type guard) and an `objects` sub-result appears in
the delivered response — the claim said neither happens for receipts. -/
theorem C5_counterexample :
    ("objects" ∈ (verify ProofType.receipt.value qrOK arOK lrVerified orVerified frDetected).invoked) ∧
    ∃ r, (verify ProofType.receipt.value qrOK arOK lrVerified orVerified frDetected).response =
        Except.ok r ∧
      r.details.objects ≠ none := by
  have h : ¬ (qrOK.overall_score < 0.3) := by norm_num [qrOK]
  have hL : ¬ runsLandmark ProofType.receipt.value := by decide
  have hF : ¬ runsFace ProofType.receipt.value := by decide
  simp [verify, h, pipelineResults, hL, hF, buildResponse, responseCore]

/-- Claim C5 amended: past the quality gate, the landmark detector runs
iff the proof type is `experience_photo` or `location_check` and the face
analyzer runs iff it is `selfie_with_id` or `experience_photo`, but the
object detector runs for every proof type; every delivered response has
the sub-results stored accordingly, and `receipt`/`video_proof` proofs
(which never hit the `_build_response` error path) always deliver a
response carrying an objects sub-result though no landmark or face
sub-result. -/
theorem C5_amended (pt : String) (qr : QualityResult)
    (ar : AuthenticityResult) (lr : LandmarkResult) (orr : ObjectResult)
    (fr : FaceResult) (hq : 0.3 ≤ qr.overall_score) :
    (("landmarks" ∈ (verify pt qr ar lr orr fr).invoked) ↔ runsLandmark pt) ∧
    (("face" ∈ (verify pt qr ar lr orr fr).invoked) ↔ runsFace pt) ∧
    ("objects" ∈ (verify pt qr ar lr orr fr).invoked) ∧
    (∀ r, (verify pt qr ar lr orr fr).response = Except.ok r →
      r.details.landmarks = (if runsLandmark pt then some lr else none) ∧
      r.details.face = (if runsFace pt then some fr else none) ∧
      r.details.objects = some orr) ∧
    (pt = ProofType.receipt.value ∨ pt = ProofType.video_proof.value →
      ∃ r, (verify pt qr ar lr orr fr).response = Except.ok r ∧
        r.details.landmarks = none ∧ r.details.face = none ∧
        r.details.objects = some orr) := by
  have h : ¬ qr.overall_score < 0.3 := not_lt.mpr hq
  have hinv : (("landmarks" ∈ (verify pt qr ar lr orr fr).invoked) ↔ runsLandmark pt) ∧
      (("face" ∈ (verify pt qr ar lr orr fr).invoked) ↔ runsFace pt) ∧
      ("objects" ∈ (verify pt qr ar lr orr fr).invoked) := by
    by_cases hL : runsLandmark pt <;> by_cases hF : runsFace pt <;>
      simp [verify, h, hL, hF]
  refine ⟨hinv.1, hinv.2.1, hinv.2.2, ?_, ?_⟩
  · intro r hr
    by_cases hL : runsLandmark pt
    · cases htm : lr.top_match with
      | none =>
        simp [verify, h, pipelineResults, hL, htm, buildResponse] at hr
      | some tm =>
        by_cases hF : runsFace pt <;>
          simp [verify, h, pipelineResults, hL, hF, htm, buildResponse, responseCore] at hr <;>
          simp [← hr, hL, hF]
    · by_cases hF : runsFace pt <;>
        simp [verify, h, pipelineResults, hL, hF, buildResponse, responseCore] at hr <;>
        simp [← hr, hL, hF]
  · rintro (rfl | rfl) <;>
      simp [verify, h, pipelineResults, buildResponse, responseCore,
        (by decide : ¬ runsLandmark ProofType.receipt.value),
        (by decide : ¬ runsFace ProofType.receipt.value),
        (by decide : ¬ runsLandmark ProofType.video_proof.value),
        (by decide : ¬ runsFace ProofType.video_proof.value)]

/-- Witness for the amended C5 at a concrete input: a `video_proof`
submission delivers a response with an objects sub-result but no landmark
or face one. -/
theorem C5_witness :
    (0.3 : ℚ) ≤ qrOK.overall_score ∧
    ∃ r, (verify ProofType.video_proof.value qrOK arOK lrVerified orVerified frDetected).response =
        Except.ok r ∧
      r.details.landmarks = none ∧ r.details.face = none ∧
      r.details.objects = some orVerified :=
  ⟨by norm_num [qrOK],
    (C5_amended _ qrOK arOK lrVerified orVerified frDetected (by norm_num [qrOK])).2.2.2.2
      (Or.inr rfl)⟩

/-- Counterexample to claim C6 as stated: with `is_authentic = false` on
an `experience_photo`, there is no short-circuit — the landmark, object
and face analyzers are all still invoked and their results stored
(contradicting the claim that they are not invoked after the authenticity
outcome is known), and the delivered manual-review response carries their
sub-results. -/
theorem C6_counterexample :
    ("landmarks" ∈ (verify ProofType.experience_photo.value qrOK arBad lrVerified orVerified frDetected).invoked) ∧
    ("objects" ∈ (verify ProofType.experience_photo.value qrOK arBad lrVerified orVerified frDetected).invoked) ∧
    ("face" ∈ (verify ProofType.experience_photo.value qrOK arBad lrVerified orVerified frDetected).invoked) ∧
    ∃ r, (verify ProofType.experience_photo.value qrOK arBad lrVerified orVerified frDetected).response =
        Except.ok r ∧
      r.status = VerificationStatus.manual_review.value ∧
      r.details.landmarks ≠ none ∧ r.details.face ≠ none := by
  have h : ¬ (qrOK.overall_score < 0.3) := by norm_num [qrOK]
  have hL : runsLandmark ProofType.experience_photo.value := by decide
  have hF : runsFace ProofType.experience_photo.value := by decide
  simp [verify, h, pipelineResults, hL, hF, calcVerification, buildResponse,
    responseCore, arBad, lrVerified, VerificationStatus.value]

/-- Claim C6 amended: when the authenticity analyzer reports
`is_authentic = false`, the landmark, object and face analyzers selected
for the proof type are still invoked — only the score fusion is bypassed;
if a landmark analysis ran and found no top match the call then raises
`AttributeError` in `_build_response` and delivers nothing, and in every
other case the delivered verdict is MANUAL_REVIEW with `approved = false`,
score 0 and the manipulation issue recorded. -/
theorem C6_amended (pt : String) (qr : QualityResult)
    (ar : AuthenticityResult) (lr : LandmarkResult) (orr : ObjectResult)
    (fr : FaceResult) (hq : 0.3 ≤ qr.overall_score)
    (ha : ar.is_authentic = false) :
    ("objects" ∈ (verify pt qr ar lr orr fr).invoked) ∧
    (runsLandmark pt → "landmarks" ∈ (verify pt qr ar lr orr fr).invoked) ∧
    (runsFace pt → "face" ∈ (verify pt qr ar lr orr fr).invoked) ∧
    ((runsLandmark pt ∧ lr.top_match = none) →
      (verify pt qr ar lr orr fr).response = Except.error attributeError) ∧
    (¬(runsLandmark pt ∧ lr.top_match = none) →
      ∃ r, (verify pt qr ar lr orr fr).response = Except.ok r ∧
        r.status = VerificationStatus.manual_review.value ∧
        r.approved = false ∧ r.overall_score = 0 ∧
        ("Fotoğraf manipüle edilmiş olabilir" ∈ r.issues)) := by
  have h : ¬ qr.overall_score < 0.3 := not_lt.mpr hq
  refine ⟨?_, ?_, ?_, ?_, ?_⟩
  · by_cases hL : runsLandmark pt <;> by_cases hF : runsFace pt <;>
      simp [verify, h, hL, hF]
  · intro hL
    by_cases hF : runsFace pt <;> simp [verify, h, hL, hF]
  · intro hF
    by_cases hL : runsLandmark pt <;> simp [verify, h, hL, hF]
  · rintro ⟨hL, htm⟩
    simp [verify, h, pipelineResults, hL, htm, buildResponse]
  · intro hnc
    by_cases hL : runsLandmark pt
    · obtain ⟨tm, htm⟩ : ∃ tm, lr.top_match = some tm := by
        cases htc : lr.top_match with
        | none => exact absurd ⟨hL, htc⟩ hnc
        | some tm => exact ⟨tm, rfl⟩
      simp [verify, h, pipelineResults, hL, htm, buildResponse, responseCore,
        calcVerification, ha, VerificationStatus.value]
    · simp [verify, h, pipelineResults, hL, buildResponse, responseCore,
        calcVerification, ha, VerificationStatus.value]

/-- Witness for the amended C6 at a concrete input. -/
theorem C6_witness :
    (0.3 : ℚ) ≤ qrOK.overall_score ∧ arBad.is_authentic = false ∧
    ("landmarks" ∈ (verify ProofType.experience_photo.value qrOK arBad lrVerified orVerified frDetected).invoked) ∧
    ∃ r, (verify ProofType.experience_photo.value qrOK arBad lrVerified orVerified frDetected).response =
        Except.ok r ∧
      r.status = VerificationStatus.manual_review.value ∧
      r.approved = false ∧ r.overall_score = 0 ∧
      ("Fotoğraf manipüle edilmiş olabilir" ∈ r.issues) :=
  ⟨by norm_num [qrOK], by decide,
    (C6_amended ProofType.experience_photo.value qrOK arBad lrVerified orVerified frDetected
      (by norm_num [qrOK]) (by decide)).2.1 (Or.inl rfl),
    (C6_amended ProofType.experience_photo.value qrOK arBad lrVerified orVerified frDetected
      (by norm_num [qrOK]) (by decide)).2.2.2.2 (by simp [lrVerified])⟩

/-- Counterexample to claim C9 as stated: a `verify` call with the
unrecognized proof type "passport_scan" raises no validation error and
analyzers ARE invoked — quality, authenticity and objects all run, and
the call even delivers an auto-APPROVED result at these analyzer
outputs. -/
theorem C9_counterexample :
    unknownProofType ≠ ProofType.selfie_with_id.value ∧
    unknownProofType ≠ ProofType.experience_photo.value ∧
    unknownProofType ≠ ProofType.receipt.value ∧
    unknownProofType ≠ ProofType.location_check.value ∧
    unknownProofType ≠ ProofType.video_proof.value ∧
    (verify unknownProofType qrOK arOK lrVerified orVerified frDetected).invoked =
      ["quality", "authenticity", "objects"] ∧
    ∃ r, (verify unknownProofType qrOK arOK lrVerified orVerified frDetected).response =
        Except.ok r ∧
      r.status = VerificationStatus.approved.value := by
  have h : ¬ (qrOK.overall_score < 0.3) := by norm_num [qrOK]
  have hL : ¬ runsLandmark unknownProofType := by decide
  have hF : ¬ runsFace unknownProofType := by decide
  have hS : unknownProofType ≠ ProofType.selfie_with_id.value := by decide
  refine ⟨by decide, by decide, by decide, by decide, by decide, ?_, ?_⟩ <;>
    simp [verify, h, pipelineResults, hL, hF, hS, calcVerification, buildResponse,
      responseCore, arOK, fusedOf, scoresOf, qualityScoreOf, landmarkPart,
      objectsPart, facePart, issuesOf, landmarkIssuePart, faceIssuePart,
      decideStatus, wSum, wTotal, qrOK, orVerified, VerificationStatus.value] <;>
    norm_num

/-- Claim C9 amended: `verify` performs no proof-type validation — a call
with a proof type outside the five enumerated values proceeds normally:
the quality, authenticity and object analyzers are invoked and a
structured result is delivered; only the landmark and face analyzers are
skipped, exactly as for `receipt`/`video_proof` (so the `_build_response`
error path cannot fire). -/
theorem C9_amended (pt : String) (qr : QualityResult)
    (ar : AuthenticityResult) (lr : LandmarkResult) (orr : ObjectResult)
    (fr : FaceResult)
    (h1 : pt ≠ ProofType.selfie_with_id.value)
    (h2 : pt ≠ ProofType.experience_photo.value)
    (h3 : pt ≠ ProofType.location_check.value)
    (hq : 0.3 ≤ qr.overall_score) :
    (verify pt qr ar lr orr fr).invoked = ["quality", "authenticity", "objects"] ∧
    ∃ r, (verify pt qr ar lr orr fr).response = Except.ok r ∧
      r.details.landmarks = none ∧ r.details.face = none := by
  have h : ¬ qr.overall_score < 0.3 := not_lt.mpr hq
  have hL : ¬ runsLandmark pt := by
    rintro (hx | hx) <;> [exact h2 hx; exact h3 hx]
  have hF : ¬ runsFace pt := by
    rintro (hx | hx) <;> [exact h1 hx; exact h2 hx]
  simp [verify, h, pipelineResults, hL, hF, buildResponse, responseCore]

/-- Witness for the amended C9 at the concrete unknown proof type. -/
theorem C9_witness :
    unknownProofType ≠ ProofType.selfie_with_id.value ∧
    (0.3 : ℚ) ≤ qrOK.overall_score ∧
    (verify unknownProofType qrOK arOK lrVerified orVerified frDetected).invoked =
      ["quality", "authenticity", "objects"] ∧
    ∃ r, (verify unknownProofType qrOK arOK lrVerified orVerified frDetected).response =
        Except.ok r ∧
      r.details.landmarks = none ∧ r.details.face = none :=
  ⟨by decide, by norm_num [qrOK],
    (C9_amended unknownProofType qrOK arOK lrVerified orVerified frDetected
      (by decide) (by decide) (by decide) (by norm_num [qrOK])).1,
    (C9_amended unknownProofType qrOK arOK lrVerified orVerified frDetected
      (by decide) (by decide) (by decide) (by norm_num [qrOK])).2⟩

/-- Modelled from the claim/spec wording of C4 (score fusion): 100 × the
weighted average of the scores of the analyzers that actually ran, with
weights quality 0.15, authenticity 0.25, landmark 0.30, object 0.15,
face 0.15, renormalized over only the components that executed. Past the
gates the quality, authenticity and object analyzers always ran; the
landmark detector ran for `experience_photo`/`location_check` and the
face analyzer for `selfie_with_id`/`experience_photo`. Per-component
scores are the ones `_calculate_verification` derives from each
analyzer's result. -/
def claimRanFusion (pt : String) (qr : QualityResult) (ar : AuthenticityResult)
    (lr : LandmarkResult) (orr : ObjectResult) (fr : FaceResult) : ℚ :=
  let landmarkScore : ℚ :=
    if lr.location_verified then 1
    else match lr.top_match with
         | some tm => tm.confidence
         | none => 0.3
  let objectScore : ℚ :=
    if orr.category_verified then 1
    else if (orr.primary_category.getD ("")) ≠ "" then 0.7 else 0
  let faceScore : ℚ :=
    if fr.face_detected then (fr.quality_score + fr.liveness_score) / 2 else 0
  let tw : ℚ := 0.15 + 0.25 + 0.15 + (if runsLandmark pt then 0.3 else 0) +
    (if runsFace pt then 0.15 else 0)
  (qr.overall_score * 0.15 + ar.authenticity_score * 0.25 + objectScore * 0.15 +
    (if runsLandmark pt then landmarkScore * 0.3 else 0) +
    (if runsFace pt then faceScore * 0.15 else 0)) / tw

/-- Counterexample to claim C4 as stated: on an `experience_photo` whose
analyzers all ran and scored quality 0.8, authenticity 0.8, landmark 1.0
(location verified), objects 1.0 (category verified), face 0.8, the code
returns 90.6 — the face analyzer ran yet its score is excluded from the
fusion — while 100 × the weighted average over the analyzers that ran is
89. -/
theorem C4_counterexample :
    (∃ r, (verify ProofType.experience_photo.value qrOK arOK lrVerified orVerified frDetected).response =
        Except.ok r ∧
      r.overall_score = 453 / 5) ∧
    100 * claimRanFusion ProofType.experience_photo.value qrOK arOK lrVerified orVerified frDetected =
      89 ∧
    (453 : ℚ) / 5 ≠ 89 := by
  have h : ¬ (qrOK.overall_score < 0.3) := by norm_num [qrOK]
  have hL : runsLandmark ProofType.experience_photo.value := by decide
  have hF : runsFace ProofType.experience_photo.value := by decide
  have hS : ProofType.experience_photo.value ≠ ProofType.selfie_with_id.value := by decide
  have e1 : ∃ r, (verify ProofType.experience_photo.value qrOK arOK lrVerified orVerified frDetected).response =
      Except.ok r ∧ r.overall_score = 453 / 5 := by
    simp [verify, h, hL, hF, hS, pipelineResults, calcVerification, buildResponse,
      responseCore, fusedOf, scoresOf, qualityScoreOf, landmarkPart, objectsPart,
      facePart, issuesOf, landmarkIssuePart, faceIssuePart, decideStatus, wSum,
      wTotal, round1, qrOK, arOK, lrVerified, orVerified, frDetected]
    norm_num
    rw [round_eq]
    have hfl : ⌊(15400 : ℚ) / 17 + 1 / 2⌋ = 906 := by
      rw [Int.floor_eq_iff]; norm_num
    rw [hfl]
    norm_num
  have e2 : 100 * claimRanFusion ProofType.experience_photo.value qrOK arOK lrVerified orVerified frDetected =
      89 := by
    simp [claimRanFusion, hL, hF, qrOK, arOK, lrVerified, orVerified, frDetected]
    norm_num
  exact ⟨e1, e2, by norm_num⟩

/-- The per-component landmark score of `_calculate_verification`
(lines 801-807): 1.0 when the location is verified, else the top match's
confidence, else 0.3. -/
def landmarkScoreOf (lr : LandmarkResult) : ℚ :=
  if lr.location_verified then 1
  else match lr.top_match with
       | some tm => tm.confidence
       | none => 0.3

/-- The per-component object score (lines 812-815): 1.0 when the category
is verified, else 0.7. -/
def objectScoreOf (orr : ObjectResult) : ℚ :=
  if orr.category_verified then 1 else 0.7

/-- When the object detector's result contributes a score (lines 812-814):
category verified, or some primary category detected. -/
def objectContrib (orr : ObjectResult) : Prop :=
  orr.category_verified = true ∨ (orr.primary_category.getD ("")) ≠ ""

instance (orr : ObjectResult) : Decidable (objectContrib orr) :=
  inferInstanceAs (Decidable (_ ∨ _))

/-- The per-component face score (lines 820-830): the mean of quality and
liveness when a face was detected, else 0. -/
def faceScoreOf (fr : FaceResult) : ℚ :=
  if fr.face_detected then (fr.quality_score + fr.liveness_score) / 2 else 0

theorem wSum_cons (x : String × ℚ × ℚ) (l : List (String × ℚ × ℚ)) :
    wSum (x :: l) = x.2.1 * x.2.2 + wSum l := by
  simp [wSum]

theorem wSum_append (a b : List (String × ℚ × ℚ)) :
    wSum (a ++ b) = wSum a + wSum b := by
  simp [wSum]

theorem wTotal_cons (x : String × ℚ × ℚ) (l : List (String × ℚ × ℚ)) :
    wTotal (x :: l) = x.2.2 + wTotal l := by
  simp [wTotal]

theorem wTotal_append (a b : List (String × ℚ × ℚ)) :
    wTotal (a ++ b) = wTotal a + wTotal b := by
  simp [wTotal]

theorem landmarkPart_wSum (c : Prop) [Decidable c] (lr : LandmarkResult) :
    wSum (landmarkPart (if c then some lr else none)) =
      if c then landmarkScoreOf lr * 0.3 else 0 := by
  obtain ⟨tm, lv⟩ := lr
  by_cases hc : c <;> cases lv <;> cases tm <;>
    simp [hc, landmarkPart, landmarkScoreOf, wSum]

theorem landmarkPart_wTotal (c : Prop) [Decidable c] (lr : LandmarkResult) :
    wTotal (landmarkPart (if c then some lr else none)) =
      if c then 0.3 else 0 := by
  obtain ⟨tm, lv⟩ := lr
  by_cases hc : c <;> cases lv <;> cases tm <;>
    simp [hc, landmarkPart, wTotal]

theorem objectsPart_wSum (orr : ObjectResult) :
    wSum (objectsPart (some orr)) =
      if objectContrib orr then objectScoreOf orr * 0.15 else 0 := by
  obtain ⟨cv, pc⟩ := orr
  cases cv <;> rcases pc with _ | s <;>
    simp [objectsPart, objectContrib, objectScoreOf, wSum] <;>
    split_ifs <;> simp_all [wSum]

theorem objectsPart_wTotal (orr : ObjectResult) :
    wTotal (objectsPart (some orr)) =
      if objectContrib orr then 0.15 else 0 := by
  obtain ⟨cv, pc⟩ := orr
  cases cv <;> rcases pc with _ | s <;>
    simp [objectsPart, objectContrib, wTotal] <;>
    split_ifs <;> simp_all [wTotal]

theorem facePart_wSum (pt : String) (fr : FaceResult) :
    wSum (facePart pt (if runsFace pt then some fr else none)) =
      if pt = ProofType.selfie_with_id.value then faceScoreOf fr * 0.15 else 0 := by
  by_cases hSel : pt = ProofType.selfie_with_id.value
  · subst hSel
    have hF : runsFace ProofType.selfie_with_id.value := Or.inl rfl
    obtain ⟨fd, fq, fl, ms⟩ := fr
    cases fd <;> simp [hF, facePart, faceScoreOf, wSum]
  · by_cases hF : runsFace pt <;> simp [hSel, hF, facePart, wSum]

theorem facePart_wTotal (pt : String) (fr : FaceResult) :
    wTotal (facePart pt (if runsFace pt then some fr else none)) =
      if pt = ProofType.selfie_with_id.value then 0.15 else 0 := by
  by_cases hSel : pt = ProofType.selfie_with_id.value
  · subst hSel
    have hF : runsFace ProofType.selfie_with_id.value := Or.inl rfl
    obtain ⟨fd, fq, fl, ms⟩ := fr
    cases fd <;> simp [hF, facePart, wTotal]
  · by_cases hF : runsFace pt <;> simp [hSel, hF, facePart, wTotal]

/-- The fusion rule the code actually implements, written out directly
(the amended claim C4): weighted average over the CONTRIBUTING
components — quality (0.15) and authenticity (0.25) always; landmark
(0.30) whenever the landmark detector ran; objects (0.15) only when the
object detector verified the category or reported a primary category;
face (0.15) only on `selfie_with_id` proofs. -/
def contribFusion (pt : String) (qr : QualityResult) (ar : AuthenticityResult)
    (lr : LandmarkResult) (orr : ObjectResult) (fr : FaceResult) : ℚ :=
  (qr.overall_score * 0.15 + ar.authenticity_score * 0.25 +
    (if runsLandmark pt then landmarkScoreOf lr * 0.3 else 0) +
    (if objectContrib orr then objectScoreOf orr * 0.15 else 0) +
    (if pt = ProofType.selfie_with_id.value then faceScoreOf fr * 0.15 else 0)) /
  (0.15 + 0.25 + (if runsLandmark pt then 0.3 else 0) +
    (if objectContrib orr then 0.15 else 0) +
    (if pt = ProofType.selfie_with_id.value then 0.15 else 0))

/-- On the pipeline's results, the fused weighted average of
`_calculate_verification` equals the contributing-component fusion. -/
theorem pipeline_fused_eq (pt : String) (qr : QualityResult)
    (ar : AuthenticityResult) (lr : LandmarkResult) (orr : ObjectResult)
    (fr : FaceResult) :
    fusedOf (pipelineResults pt qr ar lr orr fr) pt =
      contribFusion pt qr ar lr orr fr := by
  have hsum : wSum (scoresOf (pipelineResults pt qr ar lr orr fr) pt) =
      qr.overall_score * 0.15 + ar.authenticity_score * 0.25 +
      (if runsLandmark pt then landmarkScoreOf lr * 0.3 else 0) +
      (if objectContrib orr then objectScoreOf orr * 0.15 else 0) +
      (if pt = ProofType.selfie_with_id.value then faceScoreOf fr * 0.15 else 0) := by
    unfold scoresOf pipelineResults qualityScoreOf
    rw [wSum_cons, wSum_cons, wSum_append, wSum_append,
      landmarkPart_wSum, objectsPart_wSum, facePart_wSum]
    simp
    ring
  have htot : wTotal (scoresOf (pipelineResults pt qr ar lr orr fr) pt) =
      0.15 + 0.25 + (if runsLandmark pt then 0.3 else 0) +
      (if objectContrib orr then 0.15 else 0) +
      (if pt = ProofType.selfie_with_id.value then 0.15 else 0) := by
    unfold scoresOf pipelineResults
    rw [wTotal_cons, wTotal_cons, wTotal_append, wTotal_append,
      landmarkPart_wTotal, objectsPart_wTotal, facePart_wTotal]
    ring
  have hpos : 0 < wTotal (scoresOf (pipelineResults pt qr ar lr orr fr) pt) := by
    rw [htot]
    split_ifs <;> norm_num
  unfold fusedOf
  rw [if_pos hpos, hsum, htot]
  rfl

/-- Claim C4 amended: past both gates, the call delivers a result unless
a landmark analysis ran and detected no top match (where `_build_response`
raises `AttributeError`); every delivered `overall_score` is 100 × the
weighted average over the CONTRIBUTING components (quality and
authenticity always; landmark when it ran; objects only when a category
was verified or detected; face only for `selfie_with_id`), rounded to one
decimal. -/
theorem C4_amended (pt : String) (qr : QualityResult) (ar : AuthenticityResult)
    (lr : LandmarkResult) (orr : ObjectResult) (fr : FaceResult)
    (hq : 0.3 ≤ qr.overall_score) (ha : ar.is_authentic = true) :
    ((runsLandmark pt ∧ lr.top_match = none) →
      (verify pt qr ar lr orr fr).response = Except.error attributeError) ∧
    (¬(runsLandmark pt ∧ lr.top_match = none) →
      ∃ r, (verify pt qr ar lr orr fr).response = Except.ok r ∧
        r.overall_score = round1 (100 * contribFusion pt qr ar lr orr fr)) := by
  have h : ¬ qr.overall_score < 0.3 := not_lt.mpr hq
  constructor
  · rintro ⟨hL, htm⟩
    simp [verify, h, pipelineResults, hL, htm, buildResponse]
  · intro hnc
    by_cases hL : runsLandmark pt
    · obtain ⟨tm, htm⟩ : ∃ tm, lr.top_match = some tm := by
        cases htc : lr.top_match with
        | none => exact absurd ⟨hL, htc⟩ hnc
        | some tm => exact ⟨tm, rfl⟩
      have hfused := pipeline_fused_eq pt qr ar lr orr fr
      simp [pipelineResults, hL, htm] at hfused
      simp [verify, h, pipelineResults, hL, htm, buildResponse, responseCore,
        calcVerification, ha, hfused, mul_comm]
    · have hfused := pipeline_fused_eq pt qr ar lr orr fr
      simp [pipelineResults, hL] at hfused
      simp [verify, h, pipelineResults, hL, buildResponse, responseCore,
        calcVerification, ha, hfused, mul_comm]

/-- Witness for the amended C4 at a concrete input (the same run as the
counterexample): the delivered score 90.6 is the rounded fusion over the
contributing components. -/
theorem C4_witness :
    (0.3 : ℚ) ≤ qrOK.overall_score ∧ arOK.is_authentic = true ∧
    ∃ r, (verify ProofType.experience_photo.value qrOK arOK lrVerified orVerified frDetected).response =
        Except.ok r ∧
      r.overall_score =
        round1 (100 * contribFusion ProofType.experience_photo.value qrOK arOK lrVerified orVerified frDetected) :=
  ⟨by norm_num [qrOK], by decide,
    (C4_amended ProofType.experience_photo.value qrOK arOK lrVerified orVerified frDetected
      (by norm_num [qrOK]) (by decide)).2 (by simp [lrVerified])⟩

theorem wSum_nonneg (l : List (String × ℚ × ℚ))
    (h : ∀ x ∈ l, 0 ≤ x.2.1 ∧ x.2.1 ≤ 1 ∧ 0 ≤ x.2.2) : 0 ≤ wSum l := by
  induction l with
  | nil => simp [wSum]
  | cons x l ih =>
    have hx := h x (by simp)
    have hl := ih (fun y hy => h y (by simp [hy]))
    rw [wSum_cons]
    have : 0 ≤ x.2.1 * x.2.2 := mul_nonneg hx.1 hx.2.2
    linarith

theorem wTotal_nonneg (l : List (String × ℚ × ℚ))
    (h : ∀ x ∈ l, 0 ≤ x.2.1 ∧ x.2.1 ≤ 1 ∧ 0 ≤ x.2.2) : 0 ≤ wTotal l := by
  induction l with
  | nil => simp [wTotal]
  | cons x l ih =>
    have hx := h x (by simp)
    have hl := ih (fun y hy => h y (by simp [hy]))
    rw [wTotal_cons]
    linarith

theorem wSum_le_wTotal (l : List (String × ℚ × ℚ))
    (h : ∀ x ∈ l, 0 ≤ x.2.1 ∧ x.2.1 ≤ 1 ∧ 0 ≤ x.2.2) : wSum l ≤ wTotal l := by
  induction l with
  | nil => simp [wSum, wTotal]
  | cons x l ih =>
    have hx := h x (by simp)
    have hl := ih (fun y hy => h y (by simp [hy]))
    rw [wSum_cons, wTotal_cons]
    have : x.2.1 * x.2.2 ≤ x.2.2 := by nlinarith [hx.1, hx.2.1, hx.2.2]
    linarith

/-- The weighted average is in [0, 1] whenever every gathered component
score is in [0, 1] (weights are nonnegative). -/
theorem fused_bounds (results : Results) (pt : String)
    (h : ∀ x ∈ scoresOf results pt, 0 ≤ x.2.1 ∧ x.2.1 ≤ 1 ∧ 0 ≤ x.2.2) :
    0 ≤ fusedOf results pt ∧ fusedOf results pt ≤ 1 := by
  simp only [fusedOf]
  split_ifs with hpos
  · refine ⟨div_nonneg (wSum_nonneg _ h) (le_of_lt hpos), ?_⟩
    rw [div_le_one hpos]
    exact wSum_le_wTotal _ h
  · norm_num

theorem landmarkPart_bounded (lm : Option LandmarkResult)
    (hc : ∀ lr ∈ lm, ∀ tm ∈ lr.top_match, 0 ≤ tm.confidence ∧ tm.confidence ≤ 1) :
    ∀ x ∈ landmarkPart lm, 0 ≤ x.2.1 ∧ x.2.1 ≤ 1 ∧ 0 ≤ x.2.2 := by
  intro x hx
  rcases lm with _ | ⟨tm, lv⟩
  · simp [landmarkPart] at hx
  · cases lv
    · rcases tm with _ | c
      · simp [landmarkPart] at hx
        subst hx
        norm_num
      · simp [landmarkPart] at hx
        subst hx
        have hcc := hc ⟨some c, false⟩ (by simp) c (by simp)
        exact ⟨hcc.1, hcc.2, by norm_num⟩
    · simp [landmarkPart] at hx
      subst hx
      norm_num

theorem objectsPart_bounded (ob : Option ObjectResult) :
    ∀ x ∈ objectsPart ob, 0 ≤ x.2.1 ∧ x.2.1 ≤ 1 ∧ 0 ≤ x.2.2 := by
  intro x hx
  rcases ob with _ | ⟨cv, pc⟩
  · simp [objectsPart] at hx
  · cases cv
    · simp [objectsPart] at hx
      rcases hx with ⟨-, hx⟩
      subst hx
      norm_num
    · simp [objectsPart] at hx
      subst hx
      norm_num

theorem facePart_bounded (pt : String) (face : Option FaceResult)
    (hf : ∀ f ∈ face, 0 ≤ f.quality_score ∧ f.quality_score ≤ 1 ∧
      0 ≤ f.liveness_score ∧ f.liveness_score ≤ 1) :
    ∀ x ∈ facePart pt face, 0 ≤ x.2.1 ∧ x.2.1 ≤ 1 ∧ 0 ≤ x.2.2 := by
  intro x hx
  unfold facePart at hx
  by_cases hSel : pt = ProofType.selfie_with_id.value
  · rw [if_pos hSel] at hx
    rcases face with _ | f
    · simp at hx
      subst hx
      norm_num
    · have hff := hf f (by simp)
      by_cases hd : f.face_detected = true
      · simp [hd] at hx
        subst hx
        refine ⟨by linarith [hff.1, hff.2.2.1], by linarith [hff.2.1, hff.2.2.2], by norm_num⟩
      · simp [hd] at hx
        subst hx
        norm_num
  · rw [if_neg hSel] at hx
    simp at hx

/-- Every score gathered by `_calculate_verification` on the pipeline's
results is in [0, 1], assuming the analyzer score ranges guaranteed by
the analyzers themselves (see the range lemmas below). -/
theorem pipeline_scores_bounded (pt : String) (qr : QualityResult)
    (ar : AuthenticityResult) (lr : LandmarkResult) (orr : ObjectResult)
    (fr : FaceResult)
    (h1 : 0 ≤ qr.overall_score) (h2 : qr.overall_score ≤ 1)
    (h3 : 0 ≤ ar.authenticity_score) (h4 : ar.authenticity_score ≤ 1)
    (h5 : ∀ tm ∈ lr.top_match, 0 ≤ tm.confidence ∧ tm.confidence ≤ 1)
    (h6 : 0 ≤ fr.quality_score) (h7 : fr.quality_score ≤ 1)
    (h8 : 0 ≤ fr.liveness_score) (h9 : fr.liveness_score ≤ 1) :
    ∀ x ∈ scoresOf (pipelineResults pt qr ar lr orr fr) pt,
      0 ≤ x.2.1 ∧ x.2.1 ≤ 1 ∧ 0 ≤ x.2.2 := by
  intro x hx
  simp only [scoresOf, pipelineResults, qualityScoreOf, Option.map_some,
    Option.getD_some, List.mem_cons, List.mem_append] at hx
  rcases hx with rfl | rfl | (hx | hx) | hx
  · exact ⟨by simpa using h1, by simpa using h2, by norm_num⟩
  · exact ⟨by simpa using h3, by simpa using h4, by norm_num⟩
  · refine landmarkPart_bounded _ ?_ x hx
    intro lr' hlr' tm htm
    by_cases hL : runsLandmark pt
    · rw [if_pos hL] at hlr'
      simp at hlr'
      subst hlr'
      exact h5 tm htm
    · rw [if_neg hL] at hlr'
      simp at hlr'
  · exact objectsPart_bounded _ x hx
  · refine facePart_bounded pt _ ?_ x hx
    intro f hf
    by_cases hF : runsFace pt
    · rw [if_pos hF] at hf
      simp at hf
      subst hf
      exact ⟨h6, h7, h8, h9⟩
    · rw [if_neg hF] at hf
      simp at hf

/-- `round(x, 1)` maps [0, 100] into [0, 100]. -/
theorem round1_bounds {x : ℚ} (h0 : 0 ≤ x) (h1 : x ≤ 100) :
    0 ≤ round1 x ∧ round1 x ≤ 100 := by
  have hl : (0 : ℤ) ≤ round (x * 10) := by
    rw [round_eq]
    apply Int.le_floor.mpr
    push_cast
    linarith
  have hu : round (x * 10) ≤ 1000 := by
    rw [round_eq]
    have h2 : ⌊x * 10 + 1 / 2⌋ < 1001 := by
      apply Int.floor_lt.mpr
      push_cast
      linarith
    omega
  unfold round1
  constructor
  · exact div_nonneg (by exact_mod_cast hl) (by norm_num)
  · rw [div_le_iff₀ (by norm_num : (0 : ℚ) < 10)]
    calc ((round (x * 10) : ℤ) : ℚ) ≤ 1000 := by exact_mod_cast hu
    _ = 100 * 10 := by norm_num

/-- Claim C7: every RESULT the verification returns — on the
quality-gate rejection path, the authenticity-gate manual-review path,
and the fused-score path alike — has `overall_score` in [0, 100] and
rounded to 1 decimal place (a multiple of one tenth), assuming the
analyzer score ranges the analyzers guarantee (quality and authenticity
overall scores in [0, 1], landmark confidences in [0, 1], face
quality/liveness in [0, 1]). -/
theorem C7_score_range (pt : String) (qr : QualityResult)
    (ar : AuthenticityResult) (lr : LandmarkResult) (orr : ObjectResult)
    (fr : FaceResult)
    (h1 : 0 ≤ qr.overall_score) (h2 : qr.overall_score ≤ 1)
    (h3 : 0 ≤ ar.authenticity_score) (h4 : ar.authenticity_score ≤ 1)
    (h5 : ∀ tm ∈ lr.top_match, 0 ≤ tm.confidence ∧ tm.confidence ≤ 1)
    (h6 : 0 ≤ fr.quality_score) (h7 : fr.quality_score ≤ 1)
    (h8 : 0 ≤ fr.liveness_score) (h9 : fr.liveness_score ≤ 1) :
    ∀ r, (verify pt qr ar lr orr fr).response = Except.ok r →
      0 ≤ r.overall_score ∧ r.overall_score ≤ 100 ∧
      ∃ n : ℤ, r.overall_score = n / 10 := by
  have hb := fused_bounds (pipelineResults pt qr ar lr orr fr) pt
    (pipeline_scores_bounded pt qr ar lr orr fr h1 h2 h3 h4 h5 h6 h7 h8 h9)
  have hr100 := round1_bounds (x := fusedOf (pipelineResults pt qr ar lr orr fr) pt * 100)
    (by nlinarith [hb.1]) (by nlinarith [hb.2])
  intro r hr
  by_cases hq : qr.overall_score < 0.3
  · simp [verify, hq, buildResponse] at hr
    subst hr
    refine ⟨?_, ?_, 0, ?_⟩ <;> simp [responseCore]
  · cases hab : ar.is_authentic with
    | false =>
      by_cases hL : runsLandmark pt
      · cases htm : lr.top_match with
        | none =>
          simp [verify, hq, pipelineResults, hL, htm, buildResponse] at hr
        | some tm =>
          simp [verify, hq, pipelineResults, hL, htm, buildResponse,
            calcVerification, hab] at hr
          subst hr
          refine ⟨?_, ?_, 0, ?_⟩ <;> simp [responseCore]
      · simp [verify, hq, pipelineResults, hL, buildResponse,
          calcVerification, hab] at hr
        subst hr
        refine ⟨?_, ?_, 0, ?_⟩ <;> simp [responseCore]
    | true =>
      by_cases hL : runsLandmark pt
      · cases htm : lr.top_match with
        | none =>
          simp [verify, hq, pipelineResults, hL, htm, buildResponse] at hr
        | some tm =>
          simp [pipelineResults, hL, htm] at hr100
          simp [verify, hq, pipelineResults, hL, htm, buildResponse,
            calcVerification, hab] at hr
          subst hr
          refine ⟨?_, ?_, ?_⟩
          · simpa [responseCore] using hr100.1
          · simpa [responseCore] using hr100.2
          · exact ⟨_, rfl⟩
      · simp [pipelineResults, hL] at hr100
        simp [verify, hq, pipelineResults, hL, buildResponse,
          calcVerification, hab] at hr
        subst hr
        refine ⟨?_, ?_, ?_⟩
        · simpa [responseCore] using hr100.1
        · simpa [responseCore] using hr100.2
        · exact ⟨_, rfl⟩

/-- Witness for C7 at a concrete input: the delivered fused-path score of
the C4 run lies inside [0, 100]. -/
theorem C7_witness :
    ((0 : ℚ) ≤ qrOK.overall_score ∧ qrOK.overall_score ≤ 1) ∧
    ∃ r, (verify ProofType.experience_photo.value qrOK arOK lrVerified orVerified frDetected).response =
        Except.ok r ∧
      0 ≤ r.overall_score ∧ r.overall_score ≤ 100 := by
  have hok : ∃ r, (verify ProofType.experience_photo.value qrOK arOK lrVerified orVerified frDetected).response =
      Except.ok r := by
    have h : ¬ (qrOK.overall_score < 0.3) := by norm_num [qrOK]
    have hL : runsLandmark ProofType.experience_photo.value := by decide
    simp [verify, h, hL, pipelineResults, buildResponse, lrVerified]
  obtain ⟨r, hr⟩ := hok
  have hc := C7_score_range ProofType.experience_photo.value qrOK arOK lrVerified orVerified frDetected
    (by norm_num [qrOK]) (by norm_num [qrOK]) (by norm_num [arOK]) (by norm_num [arOK])
    (by intro tm htm; simp [lrVerified] at htm; subst htm; norm_num)
    (by norm_num [frDetected]) (by norm_num [frDetected])
    (by norm_num [frDetected]) (by norm_num [frDetected]) r hr
  exact ⟨⟨by norm_num [qrOK], by norm_num [qrOK]⟩, r, hr, hc.1, hc.2.1⟩

/-! ## The duplicate detector (`DuplicateProofDetector`, lines 949-1024) -/

/-- A stored entry of the shared `proof_hashes` set (lines 994-1002). -/
structure ProofHashEntry where
  phash : String
  user_id : String
  moment_id : String
  uploaded_at : String
deriving DecidableEq

/-- A reported duplicate (lines 986-991). -/
structure DuplicateMatch where
  original_user_id : String
  original_moment_id : String
  similarity : ℚ
  uploaded_at : String
deriving DecidableEq

/-- The result of `check_duplicate` (lines 1006-1011). -/
structure DuplicateResult where
  is_duplicate : Bool
  duplicates : List DuplicateMatch
  phash : String
  risk_level : String
deriving DecidableEq

/-- `DuplicateProofDetector._hamming_similarity` (lines 1018-1024): 0 for
hashes of different length, else the fraction of positions at which the
two strings agree. (Python would raise `ZeroDivisionError` on two empty
hashes; hashes produced by `_calculate_phash` are 16 characters, so that
case is unreachable, and Lean's `x / 0 = 0` stands in for it.) -/
def hammingSimilarity (h1 h2 : String) : ℚ :=
  if h1.length ≠ h2.length then 0
  else ((h1.data.zip h2.data).countP (fun p => p.1 == p.2) : ℚ) / h1.length

/-- `DuplicateProofDetector.check_duplicate` (lines 956-1011), as a state
transformer on the stored hash set (modelled as a list in scan order).
`phashOf` stands for `_calculate_phash`, a deterministic function of the
image bytes. Each stored entry of a DIFFERENT user whose hash has
similarity above 0.9 is reported; the new hash is then always added. -/
def checkDuplicate (phashOf : List ℕ → String) (stored : List ProofHashEntry)
    (image_data : List ℕ) (user_id moment_id now : String) :
    DuplicateResult × List ProofHashEntry :=
  let ph := phashOf image_data
  let dups := stored.filterMap (fun e =>
    let sim := hammingSimilarity ph e.phash
    if 0.9 < sim ∧ e.user_id ≠ user_id then
      some { original_user_id := e.user_id, original_moment_id := e.moment_id
             similarity := round3 sim, uploaded_at := e.uploaded_at }
    else none)
  let entry : ProofHashEntry :=
    { phash := ph, user_id := user_id, moment_id := moment_id, uploaded_at := now }
  ({ is_duplicate := !dups.isEmpty
     duplicates := dups
     phash := ph
     risk_level := if !dups.isEmpty then "critical" else "none" },
   stored ++ [entry])

theorem hammingSimilarity_self (s : String) (h : s.length ≠ 0) :
    hammingSimilarity s s = 1 := by
  have hz : ∀ l : List Char, (l.zip l).countP (fun p => p.1 == p.2) = l.length := by
    intro l
    induction l with
    | nil => simp
    | cons a l ih => simp [List.zip_cons_cons, List.countP_cons, ih]
  unfold hammingSimilarity
  rw [if_neg (by simp)]
  rw [hz]
  have hne : (s.length : ℚ) ≠ 0 := by exact_mod_cast h
  exact div_self hne

theorem round3_one : round3 1 = 1 := by
  unfold round3
  norm_num

/-- Claim C8: byte-identical images submitted by two different users are
flagged on the second submission with reported similarity 1.0 (from the
first user's stored entry) and risk level "critical"; and a submission by
a user is NEVER flagged as a duplicate of any of that same user's own
stored hashes, so a resubmission of the same image by the same user never
matches its own prior hash. -/
theorem C8_duplicate_detection (phashOf : List ℕ → String)
    (stored0 : List ProofHashEntry) (img : List ℕ)
    (u1 u2 m1 m2 t1 t2 : String)
    (hlen : (phashOf img).length ≠ 0) (hu : u1 ≠ u2) :
    ((checkDuplicate phashOf (checkDuplicate phashOf stored0 img u1 m1 t1).2 img u2 m2 t2).1.is_duplicate =
        true ∧
      (checkDuplicate phashOf (checkDuplicate phashOf stored0 img u1 m1 t1).2 img u2 m2 t2).1.risk_level =
        "critical" ∧
      ∃ d ∈ (checkDuplicate phashOf (checkDuplicate phashOf stored0 img u1 m1 t1).2 img u2 m2 t2).1.duplicates,
        d.similarity = 1 ∧ d.original_user_id = u1 ∧ d.original_moment_id = m1) ∧
    (∀ (stored : List ProofHashEntry) (img2 : List ℕ) (m t : String),
      ∀ d ∈ (checkDuplicate phashOf stored img2 u1 m t).1.duplicates,
        d.original_user_id ≠ u1) := by
  have hself := hammingSimilarity_self (phashOf img) hlen
  constructor
  · have hd : (⟨u1, m1, round3 (hammingSimilarity (phashOf img) (phashOf img)), t1⟩ : DuplicateMatch) ∈
        (checkDuplicate phashOf (checkDuplicate phashOf stored0 img u1 m1 t1).2 img u2 m2 t2).1.duplicates := by
      simp only [checkDuplicate, List.filterMap_append, List.mem_append]
      right
      simp only [List.filterMap_cons, List.filterMap_nil]
      rw [hself]
      rw [if_pos (by exact ⟨by norm_num, hu⟩)]
      simp [hself]
    have hne : ((checkDuplicate phashOf (checkDuplicate phashOf stored0 img u1 m1 t1).2 img u2 m2 t2).1.duplicates).isEmpty =
        false := by
      rcases hx : (checkDuplicate phashOf (checkDuplicate phashOf stored0 img u1 m1 t1).2 img u2 m2 t2).1.duplicates with
        _ | _
      · rw [hx] at hd
        exact absurd hd (List.not_mem_nil _)
      · rfl
    refine ⟨?_, ?_, ?_⟩
    · show (!((checkDuplicate phashOf (checkDuplicate phashOf stored0 img u1 m1 t1).2 img u2 m2 t2).1.duplicates).isEmpty) =
        true
      rw [hne]
      rfl
    · show (if (!((checkDuplicate phashOf (checkDuplicate phashOf stored0 img u1 m1 t1).2 img u2 m2 t2).1.duplicates).isEmpty) =
          true then "critical" else "none") = "critical"
      rw [hne]
      rfl
    · exact ⟨_, hd, by simp [hself, round3_one], rfl, rfl⟩
  · intro stored img2 m t d hd
    simp only [checkDuplicate, List.mem_filterMap] at hd
    obtain ⟨e, _, he⟩ := hd
    by_cases hc : 0.9 < hammingSimilarity (phashOf img2) e.phash ∧ e.user_id ≠ u1
    · rw [if_pos hc] at he
      cases he
      exact hc.2
    · rw [if_neg hc] at he
      cases he

/-- A constant perceptual-hash function used to instantiate witnesses. -/
def constPhash : List ℕ → String := fun _ => "abcd"

/-- Witness for C8 at a concrete input: the same image submitted first by
user "u1" and then by user "u2" is flagged as a duplicate on the second
submission. -/
theorem C8_witness :
    (constPhash [1]).length ≠ 0 ∧ ("u1" : String) ≠ "u2" ∧
    (checkDuplicate constPhash (checkDuplicate constPhash [] [1] ("u1") ("m1") ("t1")).2 [1]
        ("u2") ("m2") ("t2")).1.is_duplicate = true :=
  ⟨by decide, by decide,
    ((C8_duplicate_detection constPhash [] [1] ("u1") ("u2") ("m1") ("m2") ("t1") ("t2")
      (by decide) (by decide)).1).1⟩

/-! ## The face analyzer (`FaceAnalyzer`, lines 296-381)

The analyzer's simulated feature extraction is driven by the hex digest
of the image bytes; it is embedded as a function of the 32 hex nibbles
(`h`). Cosine similarity involves a square root, so its value lives in
`ℝ`. -/

/-- Hex nibble `int(image_hash[i], 16)`; out-of-range reads default to 0
(the digest always has 32 nibbles). -/
def nib (h : List ℕ) (i : ℕ) : ℕ := h.getD i 0

/-- Byte value `int(image_hash[i:i+2], 16)`. -/
def byte2 (h : List ℕ) (i : ℕ) : ℕ := 16 * nib h i + nib h (i + 1)

/-- `sum(x ** 2 for x in a)` (line 366). -/
def sumSq (a : List ℚ) : ℚ := (a.map (fun x => x ^ 2)).sum

/-- `sum(x * y for x, y in zip(a, b))` (line 365). -/
def dotProd (a b : List ℚ) : ℚ := ((a.zip b).map (fun p => p.1 * p.2)).sum

/-- The vector norm `math.sqrt(sum(x ** 2 for x in a))` (lines 366-367). -/
noncomputable def norm2 (a : List ℚ) : ℝ := Real.sqrt ((sumSq a : ℚ) : ℝ)

open Classical in
/-- `FaceAnalyzer._cosine_similarity` (lines 363-372): 0 when either norm
is 0, else the normalized dot product. -/
noncomputable def cosineSimilarity (a b : List ℚ) : ℝ :=
  if norm2 a = 0 ∨ norm2 b = 0 then 0
  else ((dotProd a b : ℚ) : ℝ) / (norm2 a * norm2 b)

/-- `round(x, 3)` on the real-valued similarity. -/
noncomputable def round3R (x : ℝ) : ℝ := ((round (x * 1000) : ℤ) : ℝ) / 1000

/-- The 128-dimensional simulated face embedding (lines 337-340):
component `i` is `(int(image_hash[i % 32], 16) - 8) / 8`. -/
def faceEmbedding (h : List ℕ) : List ℚ :=
  (List.range 128).map (fun i => ((nib h (i % 32) : ℚ) - 8) / 8)

/-- The fields of the `FaceAnalyzer.analyze` result (lines 327-361). -/
structure FaceAnalysis where
  face_detected : Bool
  face_count : ℕ
  quality_score : ℚ
  liveness_score : Option ℚ
  match_score : Option ℝ
  embedding : Option (List ℚ)

open Classical in
/-- `FaceAnalyzer.analyze` (lines 306-361) as a function of the image
hash nibbles and the optional reference embedding. Face detection is
`int(image_hash[0], 16) > 5`. The returned `match_score` reflects two
Python truthiness checks: `if reference_embedding:` skips matching for a
missing or EMPTY reference, and `round(match_score, 3) if match_score
else None` maps a similarity of exactly 0 to `None`. -/
noncomputable def faceAnalyze (h : List ℕ) (reference : Option (List ℚ)) :
    FaceAnalysis :=
  if 5 < nib h 0 then
    let embedding := faceEmbedding h
    let quality : ℚ := 0.7 + ((byte2 h 1 : ℚ) / 255) * 0.3
    let liveness : ℚ := 0.8 + ((byte2 h 3 : ℚ) / 255) * 0.2
    let ms : Option ℝ :=
      match reference with
      | some r =>
        if r = [] then none
        else
          if cosineSimilarity embedding r = 0 then none
          else some (round3R (cosineSimilarity embedding r))
      | none => none
    { face_detected := true
      face_count := 1 + nib h 5 % 3
      quality_score := round3 quality
      liveness_score := some (round3 liveness)
      match_score := ms
      embedding := some embedding }
  else
    { face_detected := false
      face_count := 0
      quality_score := 0
      liveness_score := none
      match_score := none
      embedding := none }

/-- Claim C10: when a face is detected and a (nonempty) reference
embedding is supplied, the returned `match_score` is null — not 0 —
exactly when the cosine similarity is 0, in particular whenever either
vector has zero norm; a numeric `match_score` is returned only for a
nonzero similarity. -/
theorem C10_match_score (h : List ℕ) (r : List ℚ)
    (hdet : 5 < nib h 0) (hr : r ≠ []) :
    (cosineSimilarity (faceEmbedding h) r = 0 →
      (faceAnalyze h (some r)).match_score = none) ∧
    (∀ v, (faceAnalyze h (some r)).match_score = some v →
      cosineSimilarity (faceEmbedding h) r ≠ 0) ∧
    ((norm2 (faceEmbedding h) = 0 ∨ norm2 r = 0) →
      (faceAnalyze h (some r)).match_score = none) := by
  have hd : (faceAnalyze h (some r)).match_score =
      (if cosineSimilarity (faceEmbedding h) r = 0 then none
       else some (round3R (cosineSimilarity (faceEmbedding h) r))) := by
    unfold faceAnalyze
    rw [if_pos hdet]
    simp [hr]
  refine ⟨?_, ?_, ?_⟩
  · intro h0
    rw [hd, if_pos h0]
  · intro v hv h0
    rw [hd, if_pos h0] at hv
    cases hv
  · intro hn
    have h0 : cosineSimilarity (faceEmbedding h) r = 0 := by
      unfold cosineSimilarity
      rw [if_pos hn]
    rw [hd, if_pos h0]

/-- Witness for C10 at a concrete input: with every nibble 8 a face is
detected, and against the nonempty zero reference vector `[0]` (zero
norm, hence similarity 0) the match score is null. -/
theorem C10_witness :
    5 < nib (List.replicate 32 8) 0 ∧ ([(0 : ℚ)] ≠ []) ∧
    (faceAnalyze (List.replicate 32 8) (some [(0 : ℚ)])).match_score = none :=
  ⟨by decide, by decide,
    (C10_match_score (List.replicate 32 8) [(0 : ℚ)] (by decide) (by decide)).2.2
      (Or.inr (by simp [norm2, sumSq]))⟩

/-! ## Analyzer score formulas and their ranges

These embed the score computations of `ImageQualityAnalyzer.analyze`
(lines 491-572), `ImageAuthenticityAnalyzer.analyze` (lines 395-460) and
`LandmarkDetector.detect` (line 150), as functions of the hash-derived
byte values (each in [0, 255]) and raw inputs. Their range lemmas justify
the score-range hypotheses of `C7_score_range`. -/

/-- `round(x, 3)` maps [0, 1] into [0, 1]. -/
theorem round3_bounds01 {x : ℚ} (h0 : 0 ≤ x) (h1 : x ≤ 1) :
    0 ≤ round3 x ∧ round3 x ≤ 1 := by
  have hl : (0 : ℤ) ≤ round (x * 1000) := by
    rw [round_eq]
    apply Int.le_floor.mpr
    push_cast
    linarith
  have hu : round (x * 1000) ≤ 1000 := by
    rw [round_eq]
    have h2 : ⌊x * 1000 + 1 / 2⌋ < 1001 := by
      apply Int.floor_lt.mpr
      push_cast
      linarith
    omega
  unfold round3
  constructor
  · exact div_nonneg (by exact_mod_cast hl) (by norm_num)
  · rw [div_le_one (by norm_num : (0 : ℚ) < 1000)]
    exact_mod_cast hu

/-- A hash byte scaled to [0, 1]. -/
theorem byteFrac_bounds {b : ℕ} (hb : b ≤ 255) :
    0 ≤ (b : ℚ) / 255 ∧ (b : ℚ) / 255 ≤ 1 := by
  constructor
  · positivity
  · rw [div_le_one (by norm_num : (0 : ℚ) < 255)]
    exact_mod_cast hb

/-- Resolution sub-score (line 510): pixel count against 1920×1080,
capped at 1. -/
def resolutionScore (w h : ℕ) : ℚ := min 1 ((w * h : ℚ) / (1920 * 1080))

/-- Blur sub-score (line 514): `0.7 + byte/255 * 0.3`. -/
def blurScore (b : ℕ) : ℚ := 0.7 + ((b : ℚ) / 255) * 0.3

/-- Lighting sub-score (line 518): `0.6 + byte/255 * 0.4`. -/
def lightingScore (b : ℕ) : ℚ := 0.6 + ((b : ℚ) / 255) * 0.4

/-- Compression sub-score (lines 526-528): file size over pixel count ×3,
scaled by 10 and capped at 1. -/
def compressionScore (fileSize w h : ℕ) : ℚ :=
  min 1 ((fileSize : ℚ) / ((w : ℚ) * h * 3) * 10)

/-- The quality analyzer's overall score (lines 531-536, rounded at line
549): weights resolution 0.25, blur 0.35, lighting 0.25, compression
0.15. -/
def qualityOverallScore (w h b1 b2 fileSize : ℕ) : ℚ :=
  round3 (resolutionScore w h * 0.25 + blurScore b1 * 0.35 +
    lightingScore b2 * 0.25 + compressionScore fileSize w h * 0.15)

/-- The quality overall score always lies in [0, 1]. -/
theorem qualityOverallScore_range (w h b1 b2 fileSize : ℕ)
    (hb1 : b1 ≤ 255) (hb2 : b2 ≤ 255) :
    0 ≤ qualityOverallScore w h b1 b2 fileSize ∧
    qualityOverallScore w h b1 b2 fileSize ≤ 1 := by
  have f1 : 0 ≤ resolutionScore w h ∧ resolutionScore w h ≤ 1 :=
    ⟨le_min (by norm_num) (by positivity), min_le_left _ _⟩
  have f2 := byteFrac_bounds hb1
  have f3 := byteFrac_bounds hb2
  have f4 : 0 ≤ compressionScore fileSize w h ∧ compressionScore fileSize w h ≤ 1 :=
    ⟨le_min (by norm_num) (by positivity), min_le_left _ _⟩
  unfold qualityOverallScore
  apply round3_bounds01
  · unfold blurScore lightingScore
    nlinarith [f1.1, f2.1, f3.1, f4.1]
  · unfold blurScore lightingScore
    nlinarith [f1.2, f2.2, f3.2, f4.2]

/-- ELA sub-score (line 413): `0.85 + byte/255 * 0.15`. -/
def elaScore (b : ℕ) : ℚ := 0.85 + ((b : ℚ) / 255) * 0.15

/-- AI-generation likelihood (line 416): `byte/255 * 0.3`. -/
def aiGeneratedScore (b : ℕ) : ℚ := ((b : ℚ) / 255) * 0.3

/-- Manipulation likelihood (lines 419 and 433): `byte/255 * 0.25`, plus
0.3 when EXIF names editing software. -/
def manipulationScore (b : ℕ) (editingSoftware : Bool) : ℚ :=
  ((b : ℚ) / 255) * 0.25 + (if editingSoftware then 0.3 else 0)

/-- The authenticity score (lines 438-442, rounded at line 453):
`ela*0.4 + (1-ai)*0.3 + (1-manipulation)*0.3`. -/
def authenticityScoreOf (b1 b2 b3 : ℕ) (editing : Bool) : ℚ :=
  round3 (elaScore b1 * 0.4 + (1 - aiGeneratedScore b2) * 0.3 +
    (1 - manipulationScore b3 editing) * 0.3)

/-- The authenticity score always lies in [0, 1]. -/
theorem authenticityScoreOf_range (b1 b2 b3 : ℕ) (editing : Bool)
    (hb1 : b1 ≤ 255) (hb2 : b2 ≤ 255) (hb3 : b3 ≤ 255) :
    0 ≤ authenticityScoreOf b1 b2 b3 editing ∧
    authenticityScoreOf b1 b2 b3 editing ≤ 1 := by
  have f1 := byteFrac_bounds hb1
  have f2 := byteFrac_bounds hb2
  have f3 := byteFrac_bounds hb3
  have hif : 0 ≤ (if editing then (0.3 : ℚ) else 0) ∧
      (if editing then (0.3 : ℚ) else 0) ≤ 0.3 := by
    cases editing <;> norm_num
  unfold authenticityScoreOf elaScore aiGeneratedScore manipulationScore
  apply round3_bounds01 <;>
    nlinarith [f1.1, f1.2, f2.1, f2.2, f3.1, f3.2, hif.1, hif.2]

/-- The landmark detector's combined score (line 150):
`visual * 0.7 + location * 0.3`. -/
def combinedScore (vis loc : ℚ) : ℚ := vis * 0.7 + loc * 0.3

/-- A detected landmark's reported confidence (line 156). -/
def landmarkConfidence (vis loc : ℚ) : ℚ := round3 (combinedScore vis loc)

/-- With visual and location scores in [0, 1], the reported landmark
confidence lies in [0, 1]. -/
theorem landmarkConfidence_range {vis loc : ℚ} (h1 : 0 ≤ vis) (h2 : vis ≤ 1)
    (h3 : 0 ≤ loc) (h4 : loc ≤ 1) :
    0 ≤ landmarkConfidence vis loc ∧ landmarkConfidence vis loc ≤ 1 := by
  unfold landmarkConfidence combinedScore
  apply round3_bounds01 <;> nlinarith

theorem getD_le_15 (l : List ℕ) (hl : ∀ x ∈ l, x ≤ 15) (i : ℕ) :
    l.getD i 0 ≤ 15 := by
  induction l generalizing i with
  | nil => simp [List.getD]
  | cons a t ih =>
    cases i with
    | zero => simpa using hl a (by simp)
    | succ j => simpa using ih (fun x hx => hl x (by simp [hx])) j

/-- The face analyzer's quality score always lies in [0, 1] (0 when no
face is detected; `round(0.7 + byte/255 * 0.3, 3)` otherwise). -/
theorem faceAnalyze_quality_range (h : List ℕ) (hnib : ∀ x ∈ h, x ≤ 15)
    (ref : Option (List ℚ)) :
    0 ≤ (faceAnalyze h ref).quality_score ∧
    (faceAnalyze h ref).quality_score ≤ 1 := by
  have hb : byte2 h 1 ≤ 255 := by
    have i1 := getD_le_15 h hnib 1
    have i2 := getD_le_15 h hnib 2
    unfold byte2 nib
    simp only [List.getD, List.get?_eq_getElem?] at i1 i2 ⊢
    norm_num
    omega
  have hf := byteFrac_bounds hb
  unfold faceAnalyze
  split_ifs with hdet
  · simp only
    apply round3_bounds01 <;> nlinarith [hf.1, hf.2]
  · simp

/-- The face analyzer's liveness score, when present, lies in [0, 1]
(`round(0.8 + byte/255 * 0.2, 3)`). -/
theorem faceAnalyze_liveness_range (h : List ℕ) (hnib : ∀ x ∈ h, x ≤ 15)
    (ref : Option (List ℚ)) :
    ∀ v ∈ (faceAnalyze h ref).liveness_score, 0 ≤ v ∧ v ≤ 1 := by
  intro v hv
  have hb : byte2 h 3 ≤ 255 := by
    have i1 := getD_le_15 h hnib 3
    have i2 := getD_le_15 h hnib 4
    unfold byte2 nib
    simp only [List.getD, List.get?_eq_getElem?] at i1 i2 ⊢
    norm_num
    omega
  have hf := byteFrac_bounds hb
  unfold faceAnalyze at hv
  split_ifs at hv with hdet
  · simp only [Option.mem_def, Option.some.injEq] at hv
    subst hv
    apply round3_bounds01 <;> nlinarith [hf.1, hf.2]
  · simp at hv

end ProofVerification
